import Mathlib

/-!
Verification of the numeric core of `src/linalg.py`: the Leontief
input-output equilibrium solver and the Lotka-Volterra explicit-Euler
simulator.  Python floats are modelled by exact rationals `ℚ`; numpy
errors (`LinAlgError` on a singular matrix, `IndexError` on an empty
array) are modelled by `Option`, a failing call returning `none`.
-/

namespace LinalgPy

/-- Model of Python's `round(x, 2)`: round to the nearest multiple of
1/100.  (Exact decimal ties cannot arise from binary floats, so the tie
direction is immaterial; we use `round`, i.e. half-up.) -/
def round2 (q : ℚ) : ℚ := (round (100 * q) : ℤ) / 100

/-- Model of Python's `int(x)` applied to a float: truncation toward
zero. -/
def pyInt (q : ℚ) : ℤ := q.num.tdiv (q.den : ℤ)

/-- Embedding of `Sector.__init__` from `src/linalg.py`: a named sector
of the economy together with the consumer demand for it. -/
structure Sector where
  name : String
  demand : ℚ

/-- Embedding of `Sector.get_name`. -/
def Sector.get_name (s : Sector) : String := s.name

/-- Embedding of `Sector.get_demand`. -/
def Sector.get_demand (s : Sector) : ℚ := s.demand

/-- State stored by `Leontief.__init__`: the economy
(consumption-coefficient) matrix, the external demand vector, and the
sector names.  The Python field `length` is the dimension `n`. -/
structure Leontief (n : ℕ) where
  economy : Matrix (Fin n) (Fin n) ℚ
  demand : Fin n → ℚ
  sectors : List String

/-- Embedding of `Leontief.__init__(producer, consumer, sectors)`. -/
def Leontief.init {n : ℕ} (producer : Matrix (Fin n) (Fin n) ℚ)
    (consumer : Fin n → ℚ) (sectors : List Sector) : Leontief n :=
  ⟨producer, consumer, sectors.map Sector.get_name⟩

/-- Model of `np.linalg.inv`: over exact rationals, inversion succeeds
iff the determinant is nonzero (numpy raises `LinAlgError` on a singular
matrix, modelled by `none`); the inverse is `det⁻¹ • adjugate`. -/
def npLinalgInv {n : ℕ} (M : Matrix (Fin n) (Fin n) ℚ) :
    Option (Matrix (Fin n) (Fin n) ℚ) :=
  if M.det = 0 then none else some (M.det⁻¹ • M.adjugate)

/-- Embedding of `Leontief.equilibrium_prod`: build `I`, form
`I − economy`, invert it, apply it to the demand vector, and round each
component to two decimal places. -/
def Leontief.equilibrium_prod {n : ℕ} (L : Leontief n) : Option (List ℚ) :=
  let I : Matrix (Fin n) (Fin n) ℚ := 1
  let I_C := I - L.economy
  match npLinalgInv I_C with
  | none => none
  | some I_C_inv =>
    let x_hat := Matrix.mulVec I_C_inv L.demand
    some ((List.ofFn x_hat).map round2)

/-- Embedding of `Animal.__init__` from `src/linalg.py`. -/
structure Animal where
  name : String
  color : String
  population : ℚ
  growth_rate : ℚ
  death_rate : ℚ

/-- Embedding of `Animal.get_population`. -/
def Animal.get_population (a : Animal) : ℚ := a.population

/-- Embedding of `Animal.get_growth_rate`. -/
def Animal.get_growth_rate (a : Animal) : ℚ := a.growth_rate

/-- Embedding of `Animal.get_death_rate`. -/
def Animal.get_death_rate (a : Animal) : ℚ := a.death_rate

/-- Model of Python dict assignment `d[k] = v` on a string-keyed dict
represented as an association list: overwrite an existing binding in
place, otherwise append. -/
def dictSet (d : List (String × ℚ)) (k : String) (v : ℚ) :
    List (String × ℚ) :=
  if (d.map Prod.fst).contains k then
    d.map (fun p => if p.1 = k then (k, v) else p)
  else d ++ [(k, v)]

/-- Model of Python dict lookup `d[k]`, `none` modelling `KeyError`. -/
def dictGet (d : List (String × ℚ)) (k : String) : Option ℚ :=
  (d.find? (fun p => p.1 == k)).map Prod.snd

/-- State stored by `PredatorPreyModel.__init__`: the initial
populations `x0 = [prey, predator]`, the parameter dictionary built by
four successive insertions, both animals, the duration `T` and the step
size. -/
structure PredatorPreyModel where
  x0 : Fin 2 → ℚ
  parameters : List (String × ℚ)
  Predator : Animal
  Prey : Animal
  T : ℚ
  step : ℚ

/-- Embedding of `PredatorPreyModel.__init__(Prey, Predator, T, step)`. -/
def PredatorPreyModel.init (Prey Predator : Animal) (T step : ℚ) :
    PredatorPreyModel where
  x0 := ![Prey.get_population, Predator.get_population]
  parameters :=
    dictSet (dictSet (dictSet (dictSet []
      "Prey Growth Rate" Prey.get_growth_rate)
      "Prey Death Rate" Prey.get_death_rate)
      "Predator Growth Rate" Predator.get_growth_rate)
      "Predator Death Rate" Predator.get_death_rate
  Predator := Predator
  Prey := Prey
  T := T
  step := step

/-- Embedding of `PredatorPreyModel.get_params`: the four dictionary
lookups, returned as `(prey_growth, prey_death, pred_growth,
pred_death)`; `none` models a `KeyError`. -/
def PredatorPreyModel.get_params (m : PredatorPreyModel) :
    Option (ℚ × ℚ × ℚ × ℚ) :=
  match dictGet m.parameters "Prey Growth Rate",
        dictGet m.parameters "Prey Death Rate",
        dictGet m.parameters "Predator Growth Rate",
        dictGet m.parameters "Predator Death Rate" with
  | some a, some b, some c, some d => some (a, b, c, d)
  | _, _, _, _ => none

/-- One iteration of the Euler loop in `lotka_volterra`, acting on the
triple of arrays `(time, prey, predator)` exactly in the statement order
of the Python body: `time[i+1]` is written first, then `predator[i+1]`
(reading `prey[i]` and `predator[i]`), then `prey[i+1]` (reading
`prey[i]` and the entry `predator[i]`, untouched by the write at
`i+1`). -/
def lvLoop (prey_growth prey_death pred_growth pred_death h : ℚ)
    (s : List ℚ × List ℚ × List ℚ) (i : ℕ) : List ℚ × List ℚ × List ℚ :=
  let time := s.1
  let prey := s.2.1
  let predator := s.2.2
  let time := time.set (i+1) (time.getD i 0 + h)
  let predator := predator.set (i+1)
    (predator.getD i 0 + h * predator.getD i 0 *
      (pred_growth * prey.getD i 0 - pred_death))
  let prey := prey.set (i+1)
    (prey.getD i 0 + h * prey.getD i 0 *
      (prey_growth - predator.getD i 0 * prey_death))
  (time, prey, predator)

/-- Embedding of `PredatorPreyModel.lotka_volterra`: `n = int(T/step)`
zeros arrays, index-0 assignments, Euler loop over `range(n-1)`,
returning `(prey, predator, time)`.  When `n = 0` the index-0 assignment
on an empty numpy array raises `IndexError` (and a negative `n` makes
`np.zeros` raise), modelled by `none`; a `KeyError` from `get_params`
propagates likewise. -/
def PredatorPreyModel.lotka_volterra (m : PredatorPreyModel) :
    Option (List ℚ × List ℚ × List ℚ) :=
  match m.get_params with
  | none => none
  | some (prey_growth, prey_death, pred_growth, pred_death) =>
    let n : ℕ := (pyInt (m.T / m.step)).toNat
    if n = 0 then none
    else
      let time := (List.replicate n (0 : ℚ)).set 0 0
      let prey := (List.replicate n (0 : ℚ)).set 0 (m.x0 0)
      let predator := (List.replicate n (0 : ℚ)).set 0 (m.x0 1)
      let r := (List.range (n - 1)).foldl
        (lvLoop prey_growth prey_death pred_growth pred_death m.step)
        (time, prey, predator)
      some (r.2.1, r.2.2, r.1)

/-- Variant of `Leontief.equilibrium_prod` with the receiver threaded
explicitly: every statement of the Python body only reads `self`, so the
post-state returned is the receiver itself. -/
def Leontief.equilibrium_prod_run {n : ℕ} (self : Leontief n) :
    Option (List ℚ) × Leontief n :=
  let I : Matrix (Fin n) (Fin n) ℚ := 1
  let I_C := I - self.economy
  match npLinalgInv I_C with
  | none => (none, self)
  | some I_C_inv =>
    let x_hat := Matrix.mulVec I_C_inv self.demand
    (some ((List.ofFn x_hat).map round2), self)

/-- Variant of `PredatorPreyModel.lotka_volterra` with the receiver
threaded explicitly; again no statement of the Python body writes to
`self`. -/
def PredatorPreyModel.lotka_volterra_run (self : PredatorPreyModel) :
    Option (List ℚ × List ℚ × List ℚ) × PredatorPreyModel :=
  match self.get_params with
  | none => (none, self)
  | some (prey_growth, prey_death, pred_growth, pred_death) =>
    let n : ℕ := (pyInt (self.T / self.step)).toNat
    if n = 0 then (none, self)
    else
      let time := (List.replicate n (0 : ℚ)).set 0 0
      let prey := (List.replicate n (0 : ℚ)).set 0 (self.x0 0)
      let predator := (List.replicate n (0 : ℚ)).set 0 (self.x0 1)
      let r := (List.range (n - 1)).foldl
        (lvLoop prey_growth prey_death pred_growth pred_death self.step)
        (time, prey, predator)
      (some (r.2.1, r.2.2, r.1), self)

/-- State of the Euler loop after its first `k` iterations. -/
def lvIter (prey_growth prey_death pred_growth pred_death h : ℚ)
    (s0 : List ℚ × List ℚ × List ℚ) (k : ℕ) : List ℚ × List ℚ × List ℚ :=
  (List.range k).foldl (lvLoop prey_growth prey_death pred_growth pred_death h) s0

/-- Concrete 1×1 economy with coefficient 1/2 and demand 10. -/
def LHalf : Leontief 1 :=
  Leontief.init (Matrix.of ![![(1 : ℚ)/2]]) ![(10 : ℚ)] [⟨"Mining", 10⟩]

/-- Concrete 1×1 identity economy, the spec's example of a singular
`I − A`. -/
def LId : Leontief 1 :=
  Leontief.init (1 : Matrix (Fin 1) (Fin 1) ℚ) ![(10 : ℚ)] [⟨"Mining", 10⟩]

/-- Concrete prey animal with growth rate 0 and predation (death)
rate 0. -/
def squirrelB : Animal := ⟨"Flying Squirrel", "#ff9f43", 3, 0, 0⟩

/-- Concrete prey animal with growth rate 0 and predation (death)
rate 1. -/
def squirrelA : Animal := ⟨"Flying Squirrel", "#ff9f43", 3, 0, 1⟩

/-- Concrete predator with reproduction rate 0 and mortality rate 1. -/
def owlB : Animal := ⟨"Spotted Owl", "#576574", 5, 0, 1⟩

lemma npLinalgInv_eq_inv {n : ℕ} (M : Matrix (Fin n) (Fin n) ℚ)
    (h : M.det ≠ 0) : npLinalgInv M = some M⁻¹ := by
  simp only [npLinalgInv, if_neg h]
  rw [Matrix.inv_def, Ring.inverse_eq_inv]

lemma npLinalgInv_eq_none {n : ℕ} (M : Matrix (Fin n) (Fin n) ℚ)
    (h : M.det = 0) : npLinalgInv M = none := by
  simp [npLinalgInv, h]

/-- Closed form of a successful solve: with `I − A` non-singular the
result is the rounded image of the demand under the inverse. -/
lemma equilibrium_prod_formula {n : ℕ} (L : Leontief n)
    (h : (1 - L.economy).det ≠ 0) :
    L.equilibrium_prod =
      some ((List.ofFn (Matrix.mulVec (1 - L.economy)⁻¹ L.demand)).map round2) := by
  simp only [Leontief.equilibrium_prod]
  rw [npLinalgInv_eq_inv _ h]

/-- C1: for every economy matrix `A` and demand vector `D` with `I − A`
non-singular, `equilibrium_prod` returns the production vector
`X = (I − A)⁻¹ · D`, each component rounded to two decimal places. -/
theorem equilibrium_prod_eq_inv_smul_demand {n : ℕ} (L : Leontief n)
    (h : (1 - L.economy).det ≠ 0) :
    L.equilibrium_prod =
      some ((List.ofFn (Matrix.mulVec (1 - L.economy)⁻¹ L.demand)).map round2) :=
  equilibrium_prod_formula L h

lemma LHalf_det : (1 - LHalf.economy).det ≠ 0 := by
  rw [Matrix.det_fin_one]
  norm_num [LHalf, Leontief.init, Matrix.sub_apply, Matrix.one_apply]

/-- Witness for C1 at the 1×1 economy `A = [[1/2]]`, `D = [10]`. -/
theorem equilibrium_prod_eq_inv_smul_demand_witness :
    LHalf.equilibrium_prod =
      some ((List.ofFn (Matrix.mulVec (1 - LHalf.economy)⁻¹ LHalf.demand)).map round2) :=
  equilibrium_prod_eq_inv_smul_demand LHalf LHalf_det

/-- C4: whenever `I − A` is singular, `equilibrium_prod` signals the
numeric error (returns `none`) rather than a result. -/
theorem equilibrium_prod_singular_none {n : ℕ} (L : Leontief n)
    (h : (1 - L.economy).det = 0) :
    L.equilibrium_prod = none := by
  simp only [Leontief.equilibrium_prod]
  rw [npLinalgInv_eq_none _ h]

/-- Witness for C4 at `A =` identity: the call fails. -/
theorem equilibrium_prod_singular_none_witness :
    LId.equilibrium_prod = none :=
  equilibrium_prod_singular_none LId (by
    rw [Matrix.det_fin_one]
    norm_num [LId, Leontief.init, Matrix.sub_apply])

/-- C6: for a 1×1 economy with coefficient `a ≠ 1` and demand `d`, the
solver returns the single value `d / (1 − a)` rounded to two decimals. -/
theorem equilibrium_prod_one_by_one (a d : ℚ) (ha : a ≠ 1)
    (sectors : List Sector) :
    (Leontief.init (Matrix.of ![![a]]) ![d] sectors).equilibrium_prod =
      some [round2 (d / (1 - a))] := by
  have hdet : (1 - (Leontief.init (Matrix.of ![![a]]) ![d] sectors).economy).det ≠ 0 := by
    rw [Matrix.det_fin_one]
    simp only [Leontief.init, Matrix.sub_apply, Matrix.one_apply_eq, Matrix.of_apply]
    simp only [Matrix.cons_val', Matrix.cons_val_zero, Matrix.empty_val',
      Matrix.cons_val_fin_one]
    intro hc
    apply ha
    linarith
  rw [equilibrium_prod_formula _ hdet]
  congr 1
  simp only [Leontief.init]
  have h11 : ((1 : Matrix (Fin 1) (Fin 1) ℚ) - Matrix.of ![![a]]) =
      Matrix.of ![![1 - a]] := by
    ext i j
    fin_cases i <;> fin_cases j
    simp [Matrix.sub_apply, Matrix.one_apply]
  rw [h11]
  have hinv : (Matrix.of ![![(1 : ℚ) - a]])⁻¹ = Matrix.of ![![(1 - a)⁻¹]] := by
    rw [Matrix.inv_def, Matrix.adjugate_fin_one, Matrix.det_fin_one, Ring.inverse_eq_inv]
    ext i j
    fin_cases i <;> fin_cases j
    simp [Matrix.smul_apply, Matrix.one_apply]
  rw [hinv]
  have hmv : Matrix.mulVec (Matrix.of ![![(1 - a)⁻¹]]) ![d] = ![(1 - a)⁻¹ * d] := by
    ext i
    fin_cases i
    simp [Matrix.mulVec, Matrix.dotProduct]
  rw [hmv]
  simp [List.ofFn_succ, div_eq_mul_inv, mul_comm]

/-- Witness for C6 at `a = 1/2`, `d = 10`: the production level is 20. -/
theorem equilibrium_prod_one_by_one_witness :
    (Leontief.init (Matrix.of ![![(1 : ℚ)/2]]) ![(10 : ℚ)] []).equilibrium_prod =
      some [(20 : ℚ)] := by
  rw [equilibrium_prod_one_by_one (1/2) 10 (by norm_num) []]
  norm_num [round2]

/-- C8: for the zero economy matrix and any demand vector, equilibrium
production equals external demand componentwise (up to the 2-decimal
rounding applied to the output). -/
theorem equilibrium_prod_zero_economy {n : ℕ} (D : Fin n → ℚ)
    (sectors : List Sector) :
    (Leontief.init (0 : Matrix (Fin n) (Fin n) ℚ) D sectors).equilibrium_prod =
      some ((List.ofFn D).map round2) := by
  have hdet : (1 - (Leontief.init (0 : Matrix (Fin n) (Fin n) ℚ) D sectors).economy).det ≠ 0 := by
    simp [Leontief.init]
  rw [equilibrium_prod_formula _ hdet]
  congr 2
  simp [Leontief.init, Matrix.one_mulVec]

/-- C7: the solver is deterministic — two `Leontief` objects with
identical economy, demand and sectors produce identical outputs. -/
theorem equilibrium_prod_deterministic {n : ℕ} (L₁ L₂ : Leontief n)
    (he : L₁.economy = L₂.economy) (hd : L₁.demand = L₂.demand)
    (hs : L₁.sectors = L₂.sectors) :
    L₁.equilibrium_prod = L₂.equilibrium_prod := by
  cases L₁
  cases L₂
  cases he
  cases hd
  cases hs
  rfl

/-- Witness for C7: two separately constructed copies of the same 1×1
economy give the same output. -/
theorem equilibrium_prod_deterministic_witness :
    LHalf.equilibrium_prod = LHalf.equilibrium_prod :=
  equilibrium_prod_deterministic LHalf LHalf rfl rfl rfl

lemma getD_set_self {l : List ℚ} {i : ℕ} {a : ℚ} (h : i < l.length) :
    (l.set i a).getD i 0 = a := by
  simp [List.getD_eq_getElem?_getD, List.getElem?_set_self h]

lemma getD_set_ne {l : List ℚ} {i j : ℕ} {a : ℚ} (h : i ≠ j) :
    (l.set i a).getD j 0 = l.getD j 0 := by
  simp [List.getD_eq_getElem?_getD, List.getElem?_set_ne h]

lemma lvIter_succ (pg pd Pg Pd h : ℚ) (s0 : List ℚ × List ℚ × List ℚ) (k : ℕ) :
    lvIter pg pd Pg Pd h s0 (k + 1) =
      lvLoop pg pd Pg Pd h (lvIter pg pd Pg Pd h s0 k) k := by
  simp [lvIter, List.range_succ]

/-- Loop invariant for the Euler iteration: after `k < n` steps on
length-`n` arrays, the lengths are preserved, the index-0 entries are
untouched, and consecutive entries up to index `k` satisfy the Euler
recurrences, each update reading only time-`i` values. -/
lemma lvIter_spec (pg pd Pg Pd h : ℚ) (n : ℕ) (t0 p0 q0 : List ℚ)
    (ht : t0.length = n) (hp : p0.length = n) (hq : q0.length = n) :
    ∀ k, k < n →
    (lvIter pg pd Pg Pd h (t0, p0, q0) k).1.length = n ∧
    (lvIter pg pd Pg Pd h (t0, p0, q0) k).2.1.length = n ∧
    (lvIter pg pd Pg Pd h (t0, p0, q0) k).2.2.length = n ∧
    (lvIter pg pd Pg Pd h (t0, p0, q0) k).1.getD 0 0 = t0.getD 0 0 ∧
    (lvIter pg pd Pg Pd h (t0, p0, q0) k).2.1.getD 0 0 = p0.getD 0 0 ∧
    (lvIter pg pd Pg Pd h (t0, p0, q0) k).2.2.getD 0 0 = q0.getD 0 0 ∧
    ∀ i, i < k →
      (lvIter pg pd Pg Pd h (t0, p0, q0) k).1.getD (i+1) 0 =
        (lvIter pg pd Pg Pd h (t0, p0, q0) k).1.getD i 0 + h ∧
      (lvIter pg pd Pg Pd h (t0, p0, q0) k).2.2.getD (i+1) 0 =
        (lvIter pg pd Pg Pd h (t0, p0, q0) k).2.2.getD i 0 +
          h * (lvIter pg pd Pg Pd h (t0, p0, q0) k).2.2.getD i 0 *
            (Pg * (lvIter pg pd Pg Pd h (t0, p0, q0) k).2.1.getD i 0 - Pd) ∧
      (lvIter pg pd Pg Pd h (t0, p0, q0) k).2.1.getD (i+1) 0 =
        (lvIter pg pd Pg Pd h (t0, p0, q0) k).2.1.getD i 0 +
          h * (lvIter pg pd Pg Pd h (t0, p0, q0) k).2.1.getD i 0 *
            (pg - (lvIter pg pd Pg Pd h (t0, p0, q0) k).2.2.getD i 0 * pd) := by
  intro k
  induction k with
  | zero =>
    intro _
    refine ⟨ht, hp, hq, rfl, rfl, rfl, ?_⟩
    intro i hi
    exact absurd hi (Nat.not_lt_zero i)
  | succ k ih =>
    intro hk
    obtain ⟨iht, ihp, ihq, iht0, ihp0, ihq0, ihrec⟩ := ih (Nat.lt_of_succ_lt hk)
    set r := lvIter pg pd Pg Pd h (t0, p0, q0) k with hr
    rw [lvIter_succ]
    rw [← hr]
    simp only [lvLoop]
    have hk1t : k + 1 < r.1.length := by rw [iht]; exact hk
    have hk1p : k + 1 < r.2.1.length := by rw [ihp]; exact hk
    have hk1q : k + 1 < r.2.2.length := by rw [ihq]; exact hk
    refine ⟨?_, ?_, ?_, ?_, ?_, ?_, ?_⟩
    · simpa using iht
    · simpa using ihp
    · simpa using ihq
    · rw [getD_set_ne (by omega)]; exact iht0
    · rw [getD_set_ne (by omega)]; exact ihp0
    · rw [getD_set_ne (by omega)]; exact ihq0
    · intro i hi
      rcases Nat.lt_or_ge i k with hik | hik
      · -- an earlier step: the write at index k+1 touches none of the
        -- entries at i or i+1
        obtain ⟨rt, rq, rp⟩ := ihrec i hik
        refine ⟨?_, ?_, ?_⟩
        · rw [getD_set_ne (by omega), getD_set_ne (by omega)]
          exact rt
        · rw [getD_set_ne (by omega), getD_set_ne (by omega),
            getD_set_ne (by omega)]
          exact rq
        · rw [getD_set_ne (by omega), getD_set_ne (by omega),
            getD_set_ne (by omega)]
          exact rp
      · -- the step just performed, i = k
        have hik' : i = k := by omega
        subst hik'
        refine ⟨?_, ?_, ?_⟩
        · rw [getD_set_self hk1t, getD_set_ne (by omega)]
        · rw [getD_set_self hk1q, getD_set_ne (by omega),
            getD_set_ne (by omega)]
        · rw [getD_set_self hk1p, getD_set_ne (by omega),
            getD_set_ne (by omega)]

lemma pyInt_eq_floor (q : ℚ) (hq : 0 ≤ q) : pyInt q = ⌊q⌋ := by
  rw [pyInt, Rat.floor_def]
  exact Int.tdiv_eq_ediv (Rat.num_nonneg.mpr hq) (Int.natCast_nonneg _)

lemma get_params_init (Prey Predator : Animal) (T h : ℚ) :
    (PredatorPreyModel.init Prey Predator T h).get_params =
      some (Prey.growth_rate, Prey.death_rate,
        Predator.growth_rate, Predator.death_rate) := rfl

/-- Inversion principle for a successful `lotka_volterra` call: the
returned arrays have length `n = int(T/step) ≥ 1`, start at the initial
populations and time 0, and satisfy the Euler recurrences. -/
lemma lotka_volterra_some_spec (m : PredatorPreyModel) (pg pd Pg Pd : ℚ)
    (hgp : m.get_params = some (pg, pd, Pg, Pd))
    (n : ℕ) (hn : n = (pyInt (m.T / m.step)).toNat)
    (p q t : List ℚ)
    (hlv : m.lotka_volterra = some (p, q, t)) :
    1 ≤ n ∧ p.length = n ∧ q.length = n ∧ t.length = n ∧
    t.getD 0 0 = 0 ∧ p.getD 0 0 = m.x0 0 ∧ q.getD 0 0 = m.x0 1 ∧
    ∀ i, i + 1 < n →
      t.getD (i+1) 0 = t.getD i 0 + m.step ∧
      q.getD (i+1) 0 = q.getD i 0 + m.step * q.getD i 0 * (Pg * p.getD i 0 - Pd) ∧
      p.getD (i+1) 0 = p.getD i 0 + m.step * p.getD i 0 * (pg - q.getD i 0 * pd) := by
  simp only [PredatorPreyModel.lotka_volterra, hgp] at hlv
  rw [← hn] at hlv
  rcases Nat.eq_zero_or_pos n with hn0 | hn0
  · rw [if_pos hn0] at hlv
    exact absurd hlv (by simp)
  · rw [if_neg (by omega)] at hlv
    have hspec := lvIter_spec pg pd Pg Pd m.step n
      ((List.replicate n (0:ℚ)).set 0 0)
      ((List.replicate n (0:ℚ)).set 0 (m.x0 0))
      ((List.replicate n (0:ℚ)).set 0 (m.x0 1))
      (by simp) (by simp) (by simp) (n - 1) (by omega)
    simp only [lvIter] at hspec
    simp only [Option.some.injEq, Prod.mk.injEq] at hlv
    obtain ⟨hp', hq', ht'⟩ := hlv
    subst hp'
    subst hq'
    subst ht'
    obtain ⟨hlt, hlp, hlq, ht0, hp0, hq0, hrec⟩ := hspec
    refine ⟨hn0, hlp, hlq, hlt, ?_, ?_, ?_, ?_⟩
    · rw [ht0, getD_set_self (by simpa using hn0)]
    · rw [hp0, getD_set_self (by simpa using hn0)]
    · rw [hq0, getD_set_self (by simpa using hn0)]
    · intro i hi
      exact hrec i (by omega)

/-- Existence principle: when the parameters resolve and
`int(T/step) ≥ 1`, the call succeeds and all three arrays have length
`int(T/step)`. -/
lemma lotka_volterra_succeeds (m : PredatorPreyModel) (pg pd Pg Pd : ℚ)
    (hgp : m.get_params = some (pg, pd, Pg, Pd))
    (n : ℕ) (hn : n = (pyInt (m.T / m.step)).toNat) (hn1 : 1 ≤ n) :
    ∃ p q t, m.lotka_volterra = some (p, q, t) ∧
      p.length = n ∧ q.length = n ∧ t.length = n := by
  have hspec := lvIter_spec pg pd Pg Pd m.step n
    ((List.replicate n (0:ℚ)).set 0 0)
    ((List.replicate n (0:ℚ)).set 0 (m.x0 0))
    ((List.replicate n (0:ℚ)).set 0 (m.x0 1))
    (by simp) (by simp) (by simp) (n - 1) (by omega)
  simp only [lvIter] at hspec
  simp only [PredatorPreyModel.lotka_volterra, hgp]
  rw [← hn, if_neg (by omega)]
  exact ⟨_, _, _, rfl, hspec.2.1, hspec.2.2.1, hspec.1⟩

/-- C2: on any constructed model, a successful `lotka_volterra` call
returns sequences with `t[0] = 0`, `prey[0] = x0`, `predator[0] = y0`,
and, for every `0 ≤ i ≤ n − 2`, the Euler recurrences
`t[i+1] = t[i] + h`,
`predator[i+1] = predator[i] + h·predator[i]·(δ·prey[i] − γ)`,
`prey[i+1] = prey[i] + h·prey[i]·(α − predator[i]·β)`,
where both updates read only the time-`i` values `prey[i]` and
`predator[i]`. -/
theorem lotka_volterra_euler_recurrence (Prey Predator : Animal) (T h : ℚ)
    (p q t : List ℚ)
    (hlv : (PredatorPreyModel.init Prey Predator T h).lotka_volterra = some (p, q, t)) :
    t.getD 0 0 = 0 ∧ p.getD 0 0 = Prey.population ∧
    q.getD 0 0 = Predator.population ∧
    ∀ i, i + 1 < p.length →
      t.getD (i+1) 0 = t.getD i 0 + h ∧
      q.getD (i+1) 0 = q.getD i 0 + h * q.getD i 0 *
        (Predator.growth_rate * p.getD i 0 - Predator.death_rate) ∧
      p.getD (i+1) 0 = p.getD i 0 + h * p.getD i 0 *
        (Prey.growth_rate - q.getD i 0 * Prey.death_rate) := by
  obtain ⟨hn1, hpl, hql, htl, ht0, hp0, hq0, hrec⟩ :=
    lotka_volterra_some_spec _ _ _ _ _
      (get_params_init Prey Predator T h) _ rfl p q t hlv
  simp only [PredatorPreyModel.init] at hp0 hq0 hrec hpl
  simp only [Matrix.cons_val_zero, Matrix.cons_val_one, Matrix.head_cons,
    Animal.get_population] at hp0 hq0
  refine ⟨ht0, hp0, hq0, ?_⟩
  intro i hi
  exact hrec i (by omega)

/-- Witness for C2 at a concrete 3-point run (`T = 3/10`, `h = 1/10`):
the recurrences hold on the explicitly computed trajectories. -/
theorem lotka_volterra_euler_recurrence_witness :
    ([0, 1/10, 1/5] : List ℚ).getD 0 0 = 0 ∧
    ([3, 3, 3] : List ℚ).getD 0 0 = squirrelB.population ∧
    ([5, 9/2, 81/20] : List ℚ).getD 0 0 = owlB.population ∧
    ∀ i, i + 1 < ([3, 3, 3] : List ℚ).length →
      ([0, 1/10, 1/5] : List ℚ).getD (i+1) 0 =
        ([0, 1/10, 1/5] : List ℚ).getD i 0 + 1/10 ∧
      ([5, 9/2, 81/20] : List ℚ).getD (i+1) 0 =
        ([5, 9/2, 81/20] : List ℚ).getD i 0 + 1/10 * ([5, 9/2, 81/20] : List ℚ).getD i 0 *
          (owlB.growth_rate * ([3, 3, 3] : List ℚ).getD i 0 - owlB.death_rate) ∧
      ([3, 3, 3] : List ℚ).getD (i+1) 0 =
        ([3, 3, 3] : List ℚ).getD i 0 + 1/10 * ([3, 3, 3] : List ℚ).getD i 0 *
          (squirrelB.growth_rate - ([5, 9/2, 81/20] : List ℚ).getD i 0 * squirrelB.death_rate) :=
  lotka_volterra_euler_recurrence squirrelB owlB (3/10) (1/10) _ _ _ (by
    norm_num +decide [PredatorPreyModel.lotka_volterra, PredatorPreyModel.init,
      PredatorPreyModel.get_params, dictGet, dictSet, pyInt, lvLoop,
      List.range_succ, List.set, List.getD, squirrelB, owlB, Int.toNat_ofNat,
      List.foldl, List.replicate,
      Animal.get_growth_rate, Animal.get_death_rate, Animal.get_population])

/-- Counterexample for C3 as stated: with `T = 1`, `h = 2` (both
positive), `int(T/h) = 0`, and the call fails on the index-0 write to an
empty numpy array instead of returning three length-0 sequences. -/
theorem lotka_volterra_no_points_returns_nothing :
    (PredatorPreyModel.init squirrelB owlB 1 2).lotka_volterra = none ∧
    pyInt ((1 : ℚ) / 2) = 0 := by
  constructor
  · norm_num +decide [PredatorPreyModel.lotka_volterra, PredatorPreyModel.init,
      PredatorPreyModel.get_params, dictGet, dictSet, pyInt,
      squirrelB, owlB, Animal.get_growth_rate, Animal.get_death_rate,
      Animal.get_population]
  · norm_num [pyInt]
    decide

/-- C3 (amended): for every duration `T` and step `0 < h ≤ T` (so that
at least one sample point exists — otherwise the call raises instead of
returning), the three returned sequences all have the same length
`⌊T/h⌋ ≥ 1`. -/
theorem lotka_volterra_trace_length (Prey Predator : Animal) (T h : ℚ)
    (hh : 0 < h) (hT : h ≤ T) :
    ∃ p q t, (PredatorPreyModel.init Prey Predator T h).lotka_volterra = some (p, q, t) ∧
      p.length = (⌊T / h⌋).toNat ∧ q.length = (⌊T / h⌋).toNat ∧
      t.length = (⌊T / h⌋).toNat ∧ 1 ≤ ⌊T / h⌋ := by
  have hq1 : (1 : ℚ) ≤ T / h := (one_le_div hh).mpr hT
  have hfl : 1 ≤ ⌊T / h⌋ := by
    have := Int.le_floor.mpr (by exact_mod_cast hq1 : ((1 : ℤ) : ℚ) ≤ T / h)
    omega
  have hpy : pyInt (T / h) = ⌊T / h⌋ :=
    pyInt_eq_floor _ (le_trans zero_le_one hq1)
  obtain ⟨p, q, t, hlv, hp, hq, ht⟩ :=
    lotka_volterra_succeeds (PredatorPreyModel.init Prey Predator T h) _ _ _ _
      (get_params_init Prey Predator T h) ((⌊T / h⌋).toNat)
      (by simp only [PredatorPreyModel.init]; rw [hpy]) (by omega)
  exact ⟨p, q, t, hlv, hp, hq, ht, hfl⟩

/-- Witness for C3 (amended) at `T = 30`, `h = 1/10000`: exactly 300000
points. -/
theorem lotka_volterra_trace_length_witness :
    ∃ p q t, (PredatorPreyModel.init squirrelB owlB 30 (1/10000)).lotka_volterra =
        some (p, q, t) ∧
      p.length = 300000 ∧ q.length = 300000 ∧ t.length = 300000 := by
  obtain ⟨p, q, t, hlv, hp, hq, ht, -⟩ :=
    lotka_volterra_trace_length squirrelB owlB 30 (1/10000)
      (by norm_num) (by norm_num)
  have h3 : (⌊(30 : ℚ) / (1/10000)⌋).toNat = 300000 := by
    rw [show (30 : ℚ) / (1/10000) = ((300000 : ℤ) : ℚ) by norm_num, Int.floor_intCast]
    rfl
  exact ⟨p, q, t, hlv, by rw [hp, h3], by rw [hq, h3], by rw [ht, h3]⟩

/-- Counterexample for C5 as stated: with `α = δ = 0` but a nonzero
predation rate `β = 1`, the prey sequence is not constant — at the
concrete run below, `prey[1] = 3/2 ≠ 3 = x0`. -/
theorem lotka_volterra_prey_not_constant :
    squirrelA.growth_rate = 0 ∧ owlB.growth_rate = 0 ∧
    ∃ p q t, (PredatorPreyModel.init squirrelA owlB (3/10) (1/10)).lotka_volterra =
        some (p, q, t) ∧
      p.getD 1 0 ≠ squirrelA.population := by
  refine ⟨rfl, rfl, [3, 3/2, 33/40], [5, 9/2, 81/20], [0, 1/10, 1/5], ?_, ?_⟩
  · norm_num +decide [PredatorPreyModel.lotka_volterra, PredatorPreyModel.init,
      PredatorPreyModel.get_params, dictGet, dictSet, pyInt, lvLoop,
      List.range_succ, List.set, List.getD, squirrelA, owlB, Int.toNat_ofNat,
      List.foldl, List.replicate,
      Animal.get_growth_rate, Animal.get_death_rate, Animal.get_population]
  · norm_num [squirrelA]

/-- C5 (amended): when the prey growth rate `α`, the predation rate `β`
and the predator reproduction rate `δ` are all 0, the prey sequence is
constant at `x0` and the predator sequence decays geometrically by the
factor `1 − h·γ` each step (the predator half needs only `δ = 0`). -/
theorem lotka_volterra_decoupled (Prey Predator : Animal) (T h : ℚ)
    (hα : Prey.growth_rate = 0) (hβ : Prey.death_rate = 0)
    (hδ : Predator.growth_rate = 0) (p q t : List ℚ)
    (hlv : (PredatorPreyModel.init Prey Predator T h).lotka_volterra = some (p, q, t)) :
    (∀ i, i < p.length → p.getD i 0 = Prey.population) ∧
    q.getD 0 0 = Predator.population ∧
    (∀ i, i + 1 < q.length →
      q.getD (i+1) 0 = (1 - h * Predator.death_rate) * q.getD i 0) := by
  obtain ⟨hn1, hpl, hql, htl, ht0, hp0, hq0, hrec⟩ :=
    lotka_volterra_some_spec _ _ _ _ _
      (get_params_init Prey Predator T h) _ rfl p q t hlv
  simp only [PredatorPreyModel.init] at hp0 hq0 hrec hpl hql
  simp only [Matrix.cons_val_zero, Matrix.cons_val_one, Matrix.head_cons,
    Animal.get_population] at hp0 hq0
  refine ⟨?_, hq0, ?_⟩
  · intro i
    induction i with
    | zero => intro _; exact hp0
    | succ j ihj =>
      intro hj
      obtain ⟨-, -, hpj⟩ := hrec j (by omega)
      rw [hpj, hα, hβ, ihj (by omega)]
      ring
  · intro i hi
    obtain ⟨-, hqi, -⟩ := hrec i (by omega)
    rw [hqi, hδ]
    ring

/-- Witness for C5 (amended) at `γ = 1`, `h = 1/10`, `y0 = 5`: the prey
stays at 3 while the predator decays to `9/2 = 4.5` and then
`81/20 = 4.05`. -/
theorem lotka_volterra_decoupled_witness :
    ((∀ i, i < ([3, 3, 3] : List ℚ).length →
        ([3, 3, 3] : List ℚ).getD i 0 = squirrelB.population) ∧
      ([5, 9/2, 81/20] : List ℚ).getD 0 0 = owlB.population ∧
      (∀ i, i + 1 < ([5, 9/2, 81/20] : List ℚ).length →
        ([5, 9/2, 81/20] : List ℚ).getD (i+1) 0 =
          (1 - (1/10) * owlB.death_rate) * ([5, 9/2, 81/20] : List ℚ).getD i 0)) ∧
    ([5, 9/2, 81/20] : List ℚ).getD 1 0 = 45/10 ∧
    ([5, 9/2, 81/20] : List ℚ).getD 2 0 = 405/100 :=
  ⟨lotka_volterra_decoupled squirrelB owlB (3/10) (1/10) rfl rfl rfl
      [3, 3, 3] [5, 9/2, 81/20] [0, 1/10, 1/5] (by
      norm_num +decide [PredatorPreyModel.lotka_volterra, PredatorPreyModel.init,
        PredatorPreyModel.get_params, dictGet, dictSet, pyInt, lvLoop,
        List.range_succ, List.set, List.getD, squirrelB, owlB, Int.toNat_ofNat,
        List.foldl, List.replicate,
        Animal.get_growth_rate, Animal.get_death_rate, Animal.get_population]),
    by norm_num, by norm_num⟩

/-- C9: both methods are pure in their receiver — threading the object
through the translated bodies returns it unchanged, whether the call
succeeds or fails, and the returned value agrees with the direct
functional reading. -/
theorem methods_leave_receiver_unchanged :
    (∀ (n : ℕ) (L : Leontief n),
      (Leontief.equilibrium_prod_run L).2 = L ∧
      (Leontief.equilibrium_prod_run L).1 = L.equilibrium_prod) ∧
    (∀ m : PredatorPreyModel,
      (PredatorPreyModel.lotka_volterra_run m).2 = m ∧
      (PredatorPreyModel.lotka_volterra_run m).1 = m.lotka_volterra) := by
  constructor
  · intro n L
    simp only [Leontief.equilibrium_prod_run, Leontief.equilibrium_prod]
    rcases hI : npLinalgInv (1 - L.economy) with - | inv <;> simp
  · intro m
    simp only [PredatorPreyModel.lotka_volterra_run, PredatorPreyModel.lotka_volterra]
    rcases hgp : m.get_params with - | ⟨pg, pd, Pg, Pd⟩
    · simp
    · by_cases hn : (pyInt (m.T / m.step)).toNat = 0 <;> simp [hn]

/-- C10: the four parameter-dictionary keys built by the constructor are
pairwise distinct (no key collision), and `get_params` returns exactly
the four constructor-supplied rates, the predator death rate kept
separate from the predator growth rate. -/
theorem params_no_key_collision (Prey Predator : Animal) (T h : ℚ) :
    ((PredatorPreyModel.init Prey Predator T h).parameters.map Prod.fst).Nodup ∧
    (PredatorPreyModel.init Prey Predator T h).get_params =
      some (Prey.growth_rate, Prey.death_rate,
        Predator.growth_rate, Predator.death_rate) := by
  constructor
  · have hkeys : (PredatorPreyModel.init Prey Predator T h).parameters.map Prod.fst =
        ["Prey Growth Rate", "Prey Death Rate",
         "Predator Growth Rate", "Predator Death Rate"] := rfl
    rw [hkeys]
    decide
  · rfl

end LinalgPy
